import Mathlib

/-!
Shallow embedding of the `sleepdrifter` lazy-expression library
(src/lib.rs, src/param.rs) and proofs about its specification.

Rust closures may carry side effects and `evaluate` may panic
(`expect` on an empty parameter slot), so evaluation is embedded as a
state-threading partial function: `Eff σ α := σ → Option (σ × α)`,
where `none` models a panic that aborts the whole evaluation and the
state `σ` threads the observable effects (the parameter store, or an
event trace / invocation counter for user callables).
-/

namespace Sleepdrifter

/-- State-threading, possibly-panicking computation: the semantic domain
of `Expression::evaluate`. -/
def Eff (σ α : Type) : Type := σ → Option (σ × α)

/-- The `Expression<T>` trait of src/lib.rs: the capability to be
evaluated, consuming the node. -/
class Expression (σ : Type) (T : outParam Type) (E : Type) : Type where
  evaluate : E → Eff σ T

/-- `Value<T>(T)` of src/lib.rs: a known, unchanging value expression. -/
structure Value (T : Type) : Type where
  val : T

/-- `Value::evaluate` returns the held value directly (`self.0`). -/
instance instExpressionValue {σ T : Type} : Expression σ T (Value T) where
  evaluate v := fun s => some (s, v.val)

/-- `Function<T, F: FnOnce() -> T>(F)` of src/lib.rs: wrapper for an
argument-less function (the Thunk leaf of the spec). -/
structure Function (σ T : Type) : Type where
  f : Unit → Eff σ T

/-- `Function::evaluate` invokes the stored callable: `self.0()`. -/
instance instExpressionFunction {σ T : Type} : Expression σ T (Function σ T) where
  evaluate fn := fn.f ()

/-- `LazyMap<T, E, U, F>(E, F, ...)` of src/lib.rs: internal node
returned by `Expression::map`, holding the inner expression and the
transform. -/
structure LazyMap (σ T U : Type) (E : Type) : Type where
  expr : E
  f : T → Eff σ U

/-- `LazyMap::evaluate`: `let LazyMap(expr, f, _, _) = self; f(expr.evaluate())` —
the inner expression is evaluated first (a panic there aborts), then the
transform runs on the produced value and post-inner state. -/
instance instExpressionLazyMap {σ T U E : Type} [Expression σ T E] :
    Expression σ U (LazyMap σ T U E) where
  evaluate m := fun s =>
    match Expression.evaluate m.expr s with
    | none => none
    | some (s1, x) => m.f x s1

/-- `Lazy<T, E: Expression<T>>(E, PhantomData<T>)` of src/lib.rs: the
top-level wrapper delegating to the wrapped expression. -/
structure Lazy (σ T : Type) (E : Type) : Type where
  expr : E

/-- `Lazy::new`. -/
def Lazy.new {σ T E : Type} (expr : E) : Lazy σ T E := ⟨expr⟩

/-- `Lazy::evaluate` forwards to the wrapped node: `self.0.evaluate()`. -/
instance instExpressionLazy {σ T E : Type} [Expression σ T E] :
    Expression σ T (Lazy σ T E) where
  evaluate l := Expression.evaluate l.expr

/-- The trait default method `Expression::map`:
`Lazy::new(LazyMap(self, f, PhantomData, PhantomData))`. -/
def Expression.map {σ T U E : Type} [Expression σ T E] (e : E) (f : T → Eff σ U) :
    Lazy σ U (LazyMap σ T U E) :=
  Lazy.new (LazyMap.mk e f)

/-- Convenience constructor `lazy` of src/lib.rs. -/
def lazy {σ T : Type} (value : T) : Lazy σ T (Value T) :=
  Lazy.new (Value.mk value)

/-- Convenience constructor `lazyf` of src/lib.rs. -/
def lazyf {σ T : Type} (f : Unit → Eff σ T) : Lazy σ T (Function σ T) :=
  Lazy.new (Function.mk f)

/-!
The parameter subsystem of src/param.rs. The Rust slot is an
`Rc<Cell<Option<T>>>` shared by the read-side `Parameter` and the
write-side `ParameterContent` (and all of their clones). Cells are
embedded as a store from slot identifiers to `Option T`, threaded as the
evaluation state; each handle records the identifier of its shared cell,
so cloning a handle (Rust `derive(Clone)` clones the `Rc`, sharing the
cell) keeps the same identifier.
-/

/-- The heap of parameter cells: one `Cell<Option<T>>` per allocated id. -/
abbrev Store (T : Type) : Type := Nat → Option T

/-- `Cell::replace`-style update of one slot of the store. -/
def Store.update {T : Type} (st : Store T) (i : Nat) (v : Option T) : Store T :=
  fun j => if j = i then v else st j

/-- `ParameterContent<T>(Rc<Cell<Option<T>>>)` of src/param.rs: the
write-side handle, holding (the id of) the shared cell. -/
structure ParameterContent (T : Type) : Type where
  id : Nat

/-- `ParameterContent::set`: `self.0.replace(Some(value))` — stores the
value in the shared cell, discarding any previous content. -/
def ParameterContent.set {T : Type} (c : ParameterContent T) (value : T)
    (st : Store T) : Store T :=
  Store.update st c.id (some value)

/-- `derive(Clone)` on `ParameterContent`: clones the `Rc`, so the clone
shares the same cell. -/
def ParameterContent.clone {T : Type} (c : ParameterContent T) : ParameterContent T :=
  ⟨c.id⟩

/-- `Parameter<T>(Rc<Cell<Option<T>>>)` of src/param.rs: the read-side
handle, holding (the id of) the shared cell. -/
structure Parameter (T : Type) : Type where
  id : Nat

/-- `Parameter::create_with`: allocates a fresh cell holding `value` and
returns the two handles over it. The caller supplies the fresh id `i`
(in Rust, `Rc::new` picks a fresh allocation). -/
def Parameter.create_with {T : Type} (i : Nat) (value : Option T) (st : Store T) :
    (Parameter T × ParameterContent T) × Store T :=
  ((⟨i⟩, ⟨i⟩), Store.update st i value)

/-- `Parameter::empty`: `create_with(None)`. -/
def Parameter.empty {T : Type} (i : Nat) (st : Store T) :
    (Parameter T × ParameterContent T) × Store T :=
  Parameter.create_with i none st

/-- `Parameter::new`: `create_with(Some(value))`. -/
def Parameter.new {T : Type} (i : Nat) (value : T) (st : Store T) :
    (Parameter T × ParameterContent T) × Store T :=
  Parameter.create_with i (some value) st

/-- `Parameter::take`: `self.0.replace(None)` — empties the shared cell
and returns its previous content. -/
def Parameter.take {T : Type} (p : Parameter T) (st : Store T) :
    Store T × Option T :=
  (Store.update st p.id none, st p.id)

/-- `derive(Clone)` on `Parameter`: clones the `Rc`, so the clone shares
the same cell. -/
def Parameter.clone {T : Type} (p : Parameter T) : Parameter T :=
  ⟨p.id⟩

/-- `Parameter::evaluate`: `self.take().expect("Parameter value not provided")` —
takes the cell content, panicking (`none`) when the cell is empty. -/
instance instExpressionParameter {T : Type} : Expression (Store T) T (Parameter T) where
  evaluate p := fun st =>
    match Parameter.take p st with
    | (st2, some v) => some (st2, v)
    | (_, none) => none

/-- Modelled from the spec: the arithmetic-operator module (`pub mod ops;`
in src/lib.rs) has no source file under src/. Per §4.3, a binary
arithmetic combinator wraps two child expressions `left`, `right` of the
same evaluated numeric type and an operator tag. -/
structure BinaryOp (σ T : Type) (L R : Type) : Type where
  left : L
  right : R
  op : T → T → T

/-- Modelled from the spec (§4.3): `evaluate` evaluates `left` then
`right` (left-to-right, each exactly once) and returns
`op(left_value, right_value)`; a panic in either child aborts. -/
instance instExpressionBinaryOp {σ T L R : Type} [Expression σ T L] [Expression σ T R] :
    Expression σ T (BinaryOp σ T L R) where
  evaluate b := fun s =>
    match Expression.evaluate b.left s with
    | none => none
    | some (s1, lv) =>
      match Expression.evaluate b.right s1 with
      | none => none
      | some (s2, rv) => some (s2, b.op lv rv)

/-!
Concrete scenario used to settle the claims about post-consumption
`set` calls (the shape of the integration test `complex_expression`,
restricted to one parameter): allocate an empty parameter at slot 0,
bind it, evaluate the read side, then bind again and evaluate a clone.
-/

/-- One freshly allocated empty parameter over the all-empty store. -/
def exAlloc : (Parameter Int × ParameterContent Int) × Store Int :=
  Parameter.empty 0 (fun _ => none)

/-- The read-side handle of the scenario. -/
def exParam : Parameter Int := exAlloc.1.1

/-- The write-side handle of the scenario. -/
def exSetter : ParameterContent Int := exAlloc.1.2

/-- The store after `exSetter.set(5)`. -/
def exStBound : Store Int := ParameterContent.set exSetter 5 exAlloc.2

/-- The store after the read side has consumed the slot. -/
def exStConsumed : Store Int := Store.update exStBound 0 none

/-- A store whose slot 0 holds 5, used as a witness input. -/
def exStore5 : Store Int := fun j => if j = 0 then some 5 else none

/-!
Helper lemmas shared by the claim theorems.
-/

/-- Reading the slot just written. -/
theorem Store.update_same {T : Type} (st : Store T) (i : Nat) (v : Option T) :
    Store.update st i v i = v := by
  simp [Store.update]

/-- Characterization of `Parameter::evaluate` on the store: reads the
slot, empties it, and panics when it was already empty. -/
theorem Parameter.evaluate_eq {T : Type} (p : Parameter T) (st : Store T) :
    Expression.evaluate p st =
      match st p.id with
      | some v => some (Store.update st p.id none, v)
      | none => none := by
  show (match Parameter.take p st with
        | (st2, some v) => some (st2, v)
        | (_, none) => none) = _
  cases h : st p.id <;> simp [Parameter.take, h]

/-!
Claim theorems.
-/

/-- Claim C8: for every value `v` of any owned type, evaluating
`Value(v)` returns `v` unchanged and always succeeds (no panic, no
state change). -/
theorem C8_value_leaf_identity {σ T : Type} (v : T) (s : σ) :
    Expression.evaluate (Value.mk v) s = some (s, v) := rfl

/-- Claim C9: evaluating `Thunk(f)` (the `Function` node) returns `f()`:
the node forwards evaluation to the callable, and instrumenting the
callable with an invocation counter shows it is invoked exactly once
(the counter advances from `n` to `n + 1`). -/
theorem C9_thunk_invoked_exactly_once {σ T : Type} (f : Unit → Eff σ T)
    (s : σ) (f0 : Unit → T) (n : Nat) :
    Expression.evaluate (Function.mk f) s = f () s ∧
    Expression.evaluate (Function.mk (fun u k => some (k + 1, f0 u)) : Function Nat T) n
      = some (n + 1, f0 ()) :=
  ⟨rfl, rfl⟩

/-- Claim C1: evaluating `map(e, g)` yields `g` applied to the value of
`e`, with the inner expression evaluated strictly before the transform
(the transform receives the post-inner state, and a trace-instrumented
inner/transform pair logs `inner` before `transform`). -/
theorem C1_map_inner_before_transform {σ T U E : Type} [Expression σ T E]
    (e : E) (g : T → Eff σ U) (s : σ) (v : Int) (g0 : Int → Int) (t : List String) :
    Expression.evaluate (Expression.map e g) s =
      Option.bind (Expression.evaluate e s) (fun p => g p.2 p.1) ∧
    Expression.evaluate
        (Expression.map (Function.mk (fun _ tr => some (tr ++ ["inner"], v))
            : Function (List String) Int)
          (fun x tr => some (tr ++ ["transform"], g0 x))) t
      = some (t ++ ["inner", "transform"], g0 v) := by
  constructor
  · show (match Expression.evaluate e s with
          | none => none
          | some (s1, x) => g x s1) = _
    cases h : Expression.evaluate e s with
    | none => rfl
    | some p => cases p with
      | mk s1 x => rfl
  · show some (t ++ ["inner"] ++ ["transform"], g0 v)
      = some (t ++ ["inner", "transform"], g0 v)
    simp

/-- Claim C2: evaluating the binary combinator of `a`, `b` and `op`
yields `op` of the two child values, with `left` evaluated before
`right`, each exactly once (the transform of `right` receives the
post-`left` state, and a trace-instrumented pair logs `L` then `R`,
once each). -/
theorem C2_binary_op_left_then_right {σ T L R : Type}
    [Expression σ T L] [Expression σ T R]
    (a : L) (b : R) (op : T → T → T) (s : σ)
    (lv rv : Int) (f : Int → Int → Int) (t : List String) :
    Expression.evaluate (BinaryOp.mk a b op : BinaryOp σ T L R) s =
      Option.bind (Expression.evaluate a s) (fun p =>
        Option.bind (Expression.evaluate b p.1) (fun q =>
          some (q.1, op p.2 q.2))) ∧
    Expression.evaluate
        ((BinaryOp.mk (Function.mk (fun _ tr => some (tr ++ ["L"], lv)))
            (Function.mk (fun _ tr => some (tr ++ ["R"], rv))) f
          : BinaryOp (List String) Int (Function (List String) Int)
              (Function (List String) Int))) t
      = some (t ++ ["L", "R"], f lv rv) := by
  constructor
  · show (match Expression.evaluate a s with
          | none => none
          | some (s1, x) =>
            match Expression.evaluate b s1 with
            | none => none
            | some (s2, y) => some (s2, op x y)) = _
    cases ha : Expression.evaluate a s with
    | none => rfl
    | some p =>
      cases p with
      | mk s1 x =>
        show (match Expression.evaluate b s1 with
              | none => none
              | some (s2, y) => some (s2, op x y)) = _
        cases hb : Expression.evaluate b s1 with
        | none => simp [hb]
        | some q => cases q with
          | mk s2 y => simp [hb]
  · show some (t ++ ["L"] ++ ["R"], f lv rv) = some (t ++ ["L", "R"], f lv rv)
    simp

/-- Claim C10: the top-level `Lazy` wrapper is transparent: it forwards
`evaluate` to the wrapped node unchanged, and mapping over the wrapper
evaluates exactly as mapping over the wrapped node directly. -/
theorem C10_lazy_wrapper_transparent {σ T U E : Type} [Expression σ T E]
    (e : E) (g : T → Eff σ U) (s : σ) :
    Expression.evaluate (Lazy.new e : Lazy σ T E) s = Expression.evaluate e s ∧
    Expression.evaluate (Expression.map (Lazy.new e : Lazy σ T E) g) s
      = Expression.evaluate (Expression.map e g) s :=
  ⟨rfl, rfl⟩

/-- Claim C3: parameter binding is last-write-wins: after `empty()` and
`set(x)`, evaluation yields `x`; after `new(x)` and `set(y)`, evaluation
yields `y`, not `x`; after `new(x)` with no `set`, evaluation yields the
initial `x`. -/
theorem C3_last_write_wins {T : Type} (st : Store T) (i : Nat) (x y : T) :
    Option.map Prod.snd (Expression.evaluate (Parameter.empty i st).1.1
        (ParameterContent.set (Parameter.empty i st).1.2 x (Parameter.empty i st).2))
      = some x ∧
    Option.map Prod.snd (Expression.evaluate (Parameter.new i x st).1.1
        (ParameterContent.set (Parameter.new i x st).1.2 y (Parameter.new i x st).2))
      = some y ∧
    Option.map Prod.snd (Expression.evaluate (Parameter.new i x st).1.1
        (Parameter.new i x st).2)
      = some x := by
  refine ⟨?_, ?_, ?_⟩ <;>
    simp [Parameter.empty, Parameter.new, Parameter.create_with,
      ParameterContent.set, Parameter.evaluate_eq, Store.update_same]

/-- Claim C4: evaluating a parameter created by `empty()` with no
intervening `set` panics with the unbound-parameter error (`none`): the
evaluation fails fatally, with no default value supplied. -/
theorem C4_unbound_parameter_is_fatal {T : Type} (st : Store T) (i : Nat) :
    Expression.evaluate (Parameter.empty i st).1.1 (Parameter.empty i st).2 = none := by
  simp [Parameter.empty, Parameter.create_with, Parameter.evaluate_eq, Store.update_same]

/-- Claim C6: all clones of a read-side handle share the one slot: after
a single `set(x)`, evaluating the original yields `x` and empties the
shared slot, and a subsequent evaluation of a clone without a fresh
`set` fails with the unbound-parameter error. -/
theorem C6_clones_share_one_shot_slot {T : Type} (st : Store T) (i : Nat) (x : T) :
    Expression.evaluate (Parameter.empty i st).1.1
        (ParameterContent.set (Parameter.empty i st).1.2 x (Parameter.empty i st).2)
      = some (Store.update (ParameterContent.set (Parameter.empty i st).1.2 x
          (Parameter.empty i st).2) i none, x) ∧
    Expression.evaluate (Parameter.clone (Parameter.empty i st).1.1)
        (Store.update (ParameterContent.set (Parameter.empty i st).1.2 x
          (Parameter.empty i st).2) i none)
      = none := by
  constructor <;>
    simp [Parameter.empty, Parameter.create_with, Parameter.clone,
      ParameterContent.set, Parameter.evaluate_eq, Store.update_same]

/-- Claim C7: evaluating a parameter whose slot holds `Occupied(v)`
returns `v` and transitions the shared slot to `Empty`, observable at
the shared slot id. -/
theorem C7_occupied_one_shot_take {T : Type} (st : Store T) (p : Parameter T) (v : T)
    (h : st p.id = some v) :
    Expression.evaluate p st = some (Store.update st p.id none, v) ∧
    Store.update st p.id none p.id = none := by
  constructor
  · rw [Parameter.evaluate_eq, h]
  · exact Store.update_same st p.id none

/-- Witness for C7 at slot 0 holding 5. -/
theorem C7_occupied_one_shot_take_witness :
    exStore5 0 = some 5 ∧
    (Expression.evaluate (Parameter.mk 0 : Parameter Int) exStore5
        = some (Store.update exStore5 0 none, 5) ∧
     Store.update exStore5 0 none 0 = none) :=
  ⟨rfl, C7_occupied_one_shot_take exStore5 (Parameter.mk 0) 5 rfl⟩

/-- Claim C5 is refuted by the code: after the read side has consumed
the slot (first conjunct: evaluation yields 5 and empties the slot;
second conjunct: a clone evaluated on the consumed store panics), a
subsequent `set(7)` on the write side does influence a later
evaluation — the clone now yields 7 (third conjunct), exactly the
re-binding pattern of the integration test. -/
theorem C5_counterexample_set_still_observable :
    Expression.evaluate exParam exStBound = some (exStConsumed, 5) ∧
    Expression.evaluate (Parameter.clone exParam) exStConsumed = none ∧
    Option.map Prod.snd (Expression.evaluate (Parameter.clone exParam)
        (ParameterContent.set exSetter 7 exStConsumed)) = some 7 := by
  refine ⟨rfl, rfl, rfl⟩

/-- Claim C5 (amended): once the slot has been consumed (empty), a
clone's evaluation panics, and a subsequent `set(v)` refills the shared
slot so that a later evaluation of a surviving read-side clone yields
`v`; the `set` call cannot affect the already-completed evaluation, but
it does influence later evaluations of clones sharing the slot. -/
theorem C5_amended_set_refills_consumed_slot {T : Type} (st : Store T) (i : Nat) (v : T)
    (h : st i = none) :
    Expression.evaluate (Parameter.clone (Parameter.mk i) : Parameter T) st = none ∧
    Option.map Prod.snd (Expression.evaluate (Parameter.clone (Parameter.mk i) : Parameter T)
        (ParameterContent.set (ParameterContent.mk i) v st)) = some v := by
  constructor
  · simp [Parameter.clone, Parameter.evaluate_eq, h]
  · simp [Parameter.clone, ParameterContent.set, Parameter.evaluate_eq, Store.update_same]

/-- Witness for the amended C5 on the all-empty store with value 9. -/
theorem C5_amended_set_refills_consumed_slot_witness :
    (fun _ => none : Store Int) 0 = none ∧
    (Expression.evaluate (Parameter.clone (Parameter.mk 0) : Parameter Int)
        (fun _ => none : Store Int) = none ∧
     Option.map Prod.snd (Expression.evaluate (Parameter.clone (Parameter.mk 0) : Parameter Int)
        (ParameterContent.set (ParameterContent.mk 0) (9 : Int)
          (fun _ => none : Store Int))) = some 9) :=
  ⟨rfl, C5_amended_set_refills_consumed_slot (fun _ => none : Store Int) 0 9 rfl⟩

end Sleepdrifter
